import Mathlib

/-!
Shallow embedding of the FairClaim document-verification pipeline
(`backend/app/services/services.py`) and proofs about its
identifier/name-matching policy, QR-locator cascade, SQR-3 numeric
decoding, audit-trail handling and orchestrator error handling.

Modelling conventions:
* Python dicts returned by the pipeline are modelled by the `VDict`
  structure; a key absent from the dict is `none`.
* The mutable `self.verification_steps` list of `DocumentVerificationAgent`
  is threaded explicitly: step-appending functions take and return a
  `List Step`, and agent methods return the final step list alongside the
  result, mirroring the attribute left on the shared agent instance.
* External capabilities (OpenCV/pyzbar decoders, Tesseract OCR, PIL image
  loading, pdf2image rendering, the Google transliteration service, the
  `difflib.SequenceMatcher.ratio` primitive and the XML/zlib payload
  parser) are modelled as oracle inputs carried in environment structures;
  a call that can raise a Python exception is an `Except String` value.
* Python floats are modelled by `ℚ`; machine text by `String`.
-/

namespace FairClaim

/-- One entry of `self.verification_steps`: the `step` tag and the main
status/annotation string recorded with it.  The remaining informational
dict keys are not modelled. -/
structure Step where
  step : String
  status : String
deriving DecidableEq, Repr

abbrev Steps := List Step

/-- A result dictionary of the verification pipeline.  Every field is
optional because the Python code returns dicts with varying key sets
(`{}` triggers the OCR fallback, error dicts omit `audit_trail`, ...). -/
structure VDict where
  verified : Option Bool := none
  confidence : Option ℚ := none
  reason : Option String := none
  error : Option String := none
  security_alert : Option Bool := none
  verification_method : Option String := none
  name_matched : Option Bool := none
  matched_fields : Option (List String) := none
  audit_trail : Option Steps := none
deriving DecidableEq, Repr

/-- Python truthiness of an optional string (`None`/`""` are falsy). -/
def truthy : Option String → Bool
  | none => false
  | some s => s ≠ ""

/-- Python `s[-4:]`: the last four characters (the whole string when it is
shorter than four characters). -/
def last4 (s : String) : String := ⟨s.data.drop (s.data.length - 4)⟩

/-- Python `s[:n]`: the first `n` characters. -/
def firstN (n : ℕ) (s : String) : String := ⟨s.data.take n⟩

/-- Does the character list `hay` start with `needle`? -/
def startsWithChars : List Char → List Char → Bool
  | [], _ => true
  | _ :: _, [] => false
  | a :: as, b :: bs => a = b && startsWithChars as bs

/-- Does the character list contain `needle` as a contiguous run? -/
def containsChars (needle : List Char) : List Char → Bool
  | [] => startsWithChars needle []
  | b :: bs => startsWithChars needle (b :: bs) || containsChars needle bs

/-- Python `needle in hay` on strings. -/
def strContains (hay needle : String) : Bool := containsChars needle.data hay.data

/-- ASCII lower-casing of one character (Python `str.lower`, restricted to
the ASCII range the pipeline's claimed identities use). -/
def lowerChar (c : Char) : Char :=
  if 65 ≤ c.toNat ∧ c.toNat ≤ 90 then Char.ofNat (c.toNat + 32) else c

/-- Python `s.lower()`. -/
def pyLower (s : String) : String := ⟨s.data.map lowerChar⟩

/-- ASCII whitespace (what `str.strip` / `\s` treat as blank here). -/
def isSpaceChar (c : Char) : Bool :=
  c = ' ' || c = '\t' || c = '\n' || c = '\x0d' || c = '\x0b' || c = '\x0c'

/-- Python `s.strip()`. -/
def pyStrip (s : String) : String :=
  ⟨((s.data.dropWhile isSpaceChar).reverse.dropWhile isSpaceChar).reverse⟩

/-- Helper for `pySplit`: accumulate the current word (reversed) while
scanning. -/
def wordsAux : List Char → List Char → List String
  | [], acc => if acc = [] then [] else [⟨acc.reverse⟩]
  | c :: cs, acc =>
    if c = ' ' then
      if acc = [] then wordsAux cs [] else ⟨acc.reverse⟩ :: wordsAux cs []
    else wordsAux cs (c :: acc)

/-- Python `s.split()` (split on runs of blanks, here spaces, dropping
empty pieces). -/
def pySplit (s : String) : List String := wordsAux s.data []

/-- Count of list elements satisfying a Boolean test (Python
`sum(1 for x in xs if p(x))`). -/
def countP (xs : List α) (p : α → Bool) : ℕ := (xs.filter p).length

/-- First non-`none` entry of a list of optional payloads. -/
def firstSome : List (Option String) → Option String
  | [] => none
  | none :: rest => firstSome rest
  | some d :: _ => some d

/-! ### `decode_numeric_3byte` (services.py lines 78-85)

```python
def decode_numeric_3byte(raw: bytes) -> bytes:
    s = raw.decode()
    if len(s) % 3 != 0:
        raise Exception("Invalid SQR-3 format")
    return bytes(int(s[i:i+3]) for i in range(0, len(s), 3))
```

The payload is modelled as the decoded string `s`; `int(...)` raising on a
non-digit group and `bytes(...)` raising on a value above 255 are the
`Except.error` cases. -/

/-- The character is an ASCII digit (what `int` accepts in the groups the
claims quantify over). -/
def charDigit (c : Char) : Prop := 48 ≤ c.toNat ∧ c.toNat ≤ 57

instance (c : Char) : Decidable (charDigit c) := by
  unfold charDigit; infer_instance

/-- Numeric value of an ASCII digit character. -/
def digitVal (c : Char) : ℕ := c.toNat - 48

/-- Value of one 3-digit group. -/
def val3 : List Char → ℕ
  | [a, b, c] => 100 * digitVal a + 10 * digitVal b + digitVal c
  | _ => 0

/-- The consecutive 3-character groups of a payload. -/
def chunks3 : List Char → List (List Char)
  | a :: b :: c :: rest => [a, b, c] :: chunks3 rest
  | _ => []

/-- `int(s[i:i+3])` on one group: its decimal value, or the error Python
`int` raises on a non-digit group. -/
def parse3 (a b c : Char) : Except String ℕ :=
  if charDigit a ∧ charDigit b ∧ charDigit c then
    Except.ok (100 * digitVal a + 10 * digitVal b + digitVal c)
  else Except.error "invalid literal for int() with base 10"

/-- The generator `(int(s[i:i+3]) for i in range(0, len(s), 3))`. -/
def toGroups : List Char → Except String (List ℕ)
  | [] => Except.ok []
  | a :: b :: c :: rest => do
      let v ← parse3 a b c
      let vs ← toGroups rest
      Except.ok (v :: vs)
  | _ => Except.error "invalid group length"

/-- `decode_numeric_3byte`: length check, per-group `int`, and the
`bytes()` range check. -/
def decode_numeric_3byte (s : String) : Except String (List ℕ) :=
  if s.length % 3 ≠ 0 then Except.error "Invalid SQR-3 format"
  else
    match toGroups s.data with
    | Except.error e => Except.error e
    | Except.ok vs =>
        if vs.all (fun v => v < 256) then Except.ok vs
        else Except.error "bytes must be in range(0, 256)"

/-- Re-encoding of one recovered byte as a zero-padded 3-digit decimal
group (the spec's round-trip law direction). -/
def enc3 (v : ℕ) : List Char :=
  [Char.ofNat (48 + v / 100), Char.ofNat (48 + v / 10 % 10), Char.ofNat (48 + v % 10)]

/-- Re-encoding of a byte sequence as concatenated 3-digit groups. -/
def encBytes : List ℕ → List Char
  | [] => []
  | v :: vs => enc3 v ++ encBytes vs

/-- String form of the re-encoding. -/
def encode3 (vs : List ℕ) : String := ⟨encBytes vs⟩

lemma enc3_digits (a b c : Char) (ha : charDigit a) (hb : charDigit b) (hc : charDigit c) :
    enc3 (100 * digitVal a + 10 * digitVal b + digitVal c) = [a, b, c] := by
  obtain ⟨ha1, ha2⟩ := ha
  obtain ⟨hb1, hb2⟩ := hb
  obtain ⟨hc1, hc2⟩ := hc
  unfold enc3 digitVal
  have e1 : (100 * (a.toNat - 48) + 10 * (b.toNat - 48) + (c.toNat - 48)) / 100
      = a.toNat - 48 := by omega
  have e2 : (100 * (a.toNat - 48) + 10 * (b.toNat - 48) + (c.toNat - 48)) / 10 % 10
      = b.toNat - 48 := by omega
  have e3 : (100 * (a.toNat - 48) + 10 * (b.toNat - 48) + (c.toNat - 48)) % 10
      = c.toNat - 48 := by omega
  rw [e1, e2, e3]
  have fa : 48 + (a.toNat - 48) = a.toNat := by omega
  have fb : 48 + (b.toNat - 48) = b.toNat := by omega
  have fc : 48 + (c.toNat - 48) = c.toNat := by omega
  rw [fa, fb, fc, Char.ofNat_toNat, Char.ofNat_toNat, Char.ofNat_toNat]

lemma sqr3_aux : ∀ (n : ℕ) (cs : List Char), cs.length ≤ n →
    (∀ c ∈ cs, charDigit c) → cs.length % 3 = 0 →
    toGroups cs = Except.ok ((chunks3 cs).map val3) ∧
      encBytes ((chunks3 cs).map val3) = cs := by
  intro n
  induction n with
  | zero =>
    intro cs hlen _ _
    have : cs = [] := List.eq_nil_of_length_eq_zero (Nat.le_zero.mp hlen)
    subst this
    exact ⟨rfl, rfl⟩
  | succ n ih =>
    intro cs hlen hdig hmod
    match cs with
    | [] => exact ⟨rfl, rfl⟩
    | [a] => simp at hmod
    | [a, b] => simp at hmod
    | a :: b :: c :: rest =>
      have hda : charDigit a := hdig a (by simp)
      have hdb : charDigit b := hdig b (by simp)
      have hdc : charDigit c := hdig c (by simp)
      have hrest_len : rest.length ≤ n := by
        simp only [List.length_cons] at hlen; omega
      have hrest_mod : rest.length % 3 = 0 := by
        simp only [List.length_cons] at hmod ⊢; omega
      have hrest_dig : ∀ x ∈ rest, charDigit x := fun x hx => hdig x (by simp [hx])
      obtain ⟨ihok, ihenc⟩ := ih rest hrest_len hrest_dig hrest_mod
      constructor
      · show toGroups (a :: b :: c :: rest) = _
        unfold toGroups
        rw [parse3, if_pos ⟨hda, hdb, hdc⟩]
        simp only [bind, Except.bind, ihok, chunks3, List.map_cons, val3]
      · show encBytes (val3 [a, b, c] :: (chunks3 rest).map val3) = _
        unfold encBytes
        rw [ihenc]
        show enc3 (val3 [a, b, c]) ++ _ = _
        rw [show val3 [a, b, c] = 100 * digitVal a + 10 * digitVal b + digitVal c from rfl,
          enc3_digits a b c hda hdb hdc]
        rfl

lemma val3_chunks_lt (cs : List Char) (hv : ∀ g ∈ chunks3 cs, val3 g ≤ 255) :
    ((chunks3 cs).map val3).all (fun v => v < 256) = true := by
  rw [List.all_eq_true]
  intro v hvmem
  obtain ⟨g, hg, rfl⟩ := List.mem_map.mp hvmem
  have := hv g hg
  simpa using Nat.lt_succ_of_le this

/-- C6.  For every payload string that is entirely ASCII digits, has length
divisible by 3, and whose 3-digit groups all denote values at most 255,
`decode_numeric_3byte` succeeds, and re-encoding each recovered byte as a
zero-padded 3-digit decimal group reproduces the original payload
(round-trip law). -/
theorem C6_sqr3_roundtrip (s : String)
    (hd : ∀ c ∈ s.data, charDigit c)
    (h3 : s.length % 3 = 0)
    (hv : ∀ g ∈ chunks3 s.data, val3 g ≤ 255) :
    ∃ vs, decode_numeric_3byte s = Except.ok vs ∧ encode3 vs = s := by
  have hlen : s.length = s.data.length := rfl
  obtain ⟨hok, henc⟩ := sqr3_aux s.data.length s.data (le_refl _) hd (hlen ▸ h3)
  refine ⟨(chunks3 s.data).map val3, ?_, ?_⟩
  · unfold decode_numeric_3byte
    rw [if_neg (by simp [h3]), hok]
    simp [val3_chunks_lt s.data hv]
  · unfold encode3
    rw [henc]

/-- Witness for C6 at the concrete payload "065066067" (bytes 65, 66, 67). -/
theorem C6_sqr3_roundtrip_witness :
    ∃ vs, decode_numeric_3byte "065066067" = Except.ok vs ∧ encode3 vs = "065066067" :=
  C6_sqr3_roundtrip "065066067" (by decide) (by decide) (by decide)

/-! ### Identity cross-verification on the QR path (services.py lines 434-524)

The tail of `_extract_and_verify_aadhaar_qr` after a QR payload has been
parsed: the Aadhaar-number check (exact, or hard-coded last-4-digit
tolerance) and the fuzzy name check with the 0.65 threshold.
`difflib.SequenceMatcher(None, a, b).ratio()` is modelled as an oracle
`fuzzy : String → String → ℚ`; informational dict keys (`details`,
`extracted_data`, the rounded `name_match_score`, `extracted_name`,
`user_name`) are not modelled. -/

/-- Identity fields extracted from a QR payload
(`extract_fields_from_xml` / `_parse_aadhaar_qr`); a parse failure is
represented by an empty `aadhaar_number`, matching the falsy
`extracted_data.get("aadhaar_number")` check. -/
structure ParsedData where
  aadhaar_number : String := ""
  name : String := ""
  dob : String := ""
  gender : String := ""
  address : String := ""
deriving DecidableEq, Repr

/-- Lines 434-524 of `_extract_and_verify_aadhaar_qr`: number match
(`is_full_match` / `is_last_4_match`), then fuzzy name match against the
0.65 threshold, appending the corresponding audit steps. -/
def qr_check (fuzzy : String → String → ℚ) (extracted : ParsedData)
    (user_aadhaar user_name : String) (steps : Steps) : VDict × Steps :=
  let is_full_match : Prop := extracted.aadhaar_number = user_aadhaar
  let is_last_4_match : Prop :=
    user_aadhaar ≠ "" ∧ extracted.aadhaar_number ≠ "" ∧
      last4 extracted.aadhaar_number = last4 user_aadhaar
  if ¬ is_full_match ∧ ¬ is_last_4_match then
    let st := steps ++ [⟨"AADHAAR_VERIFICATION", "FAILED"⟩]
    ({ verified := some false, reason := some "Aadhaar number mismatch",
       security_alert := some true, audit_trail := some st }, st)
  else
    let st := steps ++
      [if is_last_4_match ∧ ¬ is_full_match then
         ⟨"AADHAAR_VERIFICATION", "PASSED_WITH_WARNING"⟩
       else ⟨"AADHAAR_VERIFICATION", "PASSED"⟩]
    let name_score := fuzzy (pyStrip (pyLower user_name)) (pyStrip (pyLower extracted.name))
    let st := st ++ [⟨"NAME_VERIFICATION", "checking"⟩]
    if name_score < 65 / 100 then
      let st := st ++ [⟨"NAME_VERIFICATION", "FAILED"⟩]
      ({ verified := some false, reason := some "Name mismatch",
         security_alert := some true, audit_trail := some st }, st)
    else
      let st := st ++ [⟨"NAME_VERIFICATION", "PASSED"⟩]
      ({ verified := some true, confidence := some 95,
         verification_method := some "QR_CODE_VALIDATION_UNIVERSAL",
         matched_fields := some ["aadhaar_number", "name"],
         audit_trail := some st }, st)

lemma firstN_ne_of_ne {a b : String} (h : firstN 8 a ≠ firstN 8 b) : a ≠ b := by
  intro hab; exact h (by rw [hab])

lemma length_ne_nil {s : String} (h : s.length = 12) : s ≠ "" := by
  intro hs; rw [hs] at h; simp at h

/-- C1 (amended).  For every pair of 12-digit identifiers that differ
somewhere in the first 8 digits, the QR-path identifier check produces the
`verified=false` / `security_alert=true` / "Aadhaar number mismatch"
rejection exactly when the last four digits also differ: the last-4-digit
tolerance is hard-coded (there is no enabling flag), so such a pair whose
last four digits coincide passes the identifier check. -/
theorem C1_qr_identifier_check (fuzzy : String → String → ℚ)
    (extracted : ParsedData) (user_aadhaar user_name : String) (steps : Steps)
    (h12u : user_aadhaar.length = 12) (h12e : extracted.aadhaar_number.length = 12)
    (hdiff : firstN 8 extracted.aadhaar_number ≠ firstN 8 user_aadhaar) :
    ((qr_check fuzzy extracted user_aadhaar user_name steps).1.reason
        = some "Aadhaar number mismatch"
      ↔ last4 extracted.aadhaar_number ≠ last4 user_aadhaar)
    ∧ (last4 extracted.aadhaar_number ≠ last4 user_aadhaar →
        (qr_check fuzzy extracted user_aadhaar user_name steps).1.verified = some false
        ∧ (qr_check fuzzy extracted user_aadhaar user_name steps).1.security_alert
            = some true) := by
  have hne : extracted.aadhaar_number ≠ user_aadhaar := firstN_ne_of_ne hdiff
  have hu : user_aadhaar ≠ "" := length_ne_nil h12u
  have he : extracted.aadhaar_number ≠ "" := length_ne_nil h12e
  unfold qr_check
  by_cases hl4 : last4 extracted.aadhaar_number = last4 user_aadhaar
  · rw [if_neg (by simp [hne, hu, he, hl4])]
    constructor
    · simp only [hl4]
      split <;> simp
    · intro hcon; exact absurd hl4 hcon
  · rw [if_pos (by simp [hne, hu, he, hl4])]
    exact ⟨by simp [hl4], fun _ => ⟨rfl, rfl⟩⟩

/-- Witness for C1's amended theorem at concrete 12-digit identifiers
differing in the first 8 digits. -/
theorem C1_qr_identifier_check_witness :
    ((qr_check (fun _ _ => 1) ⟨"999999991234", "Asha Rao", "", "", ""⟩
        "111111115678" "Asha Rao" []).1.reason = some "Aadhaar number mismatch"
      ↔ last4 "999999991234" ≠ last4 "111111115678")
    ∧ (last4 "999999991234" ≠ last4 "111111115678" →
        (qr_check (fun _ _ => 1) ⟨"999999991234", "Asha Rao", "", "", ""⟩
          "111111115678" "Asha Rao" []).1.verified = some false
        ∧ (qr_check (fun _ _ => 1) ⟨"999999991234", "Asha Rao", "", "", ""⟩
          "111111115678" "Asha Rao" []).1.security_alert = some true) :=
  C1_qr_identifier_check (fun _ _ => 1) ⟨"999999991234", "Asha Rao", "", "", ""⟩
    "111111115678" "Asha Rao" [] (by decide) (by decide) (by decide)

/-- Counterexample to C1 as stated: the identifiers "999999992222"
(extracted) and "111111112222" (claimed) differ in every one of the first
8 digits, yet with a perfect name-similarity oracle the QR-path check
accepts the document (`verified=true`, no security alert, no mismatch
reason) — the last-4 tolerance is always active, there is no flag to
leave it "not explicitly enabled". -/
theorem C1_counterexample :
    (qr_check (fun _ _ => 1) ⟨"999999992222", "Asha Rao", "", "", ""⟩
        "111111112222" "Asha Rao" []).1.verified = some true
    ∧ (qr_check (fun _ _ => 1) ⟨"999999992222", "Asha Rao", "", "", ""⟩
        "111111112222" "Asha Rao" []).1.security_alert = none
    ∧ (qr_check (fun _ _ => 1) ⟨"999999992222", "Asha Rao", "", "", ""⟩
        "111111112222" "Asha Rao" []).1.reason ≠ some "Aadhaar number mismatch" := by
  unfold qr_check
  rw [if_neg (by decide), if_neg (by norm_num)]
  refine ⟨rfl, rfl, by simp⟩

/-- C7.  On the QR path, once the identifier check has passed, the name
check applies the similarity oracle to the case-folded, trimmed claimed
and extracted full names: a ratio below 0.65 yields `verified=false`,
`security_alert=true` and reason "Name mismatch", while a ratio of at
least 0.65 passes the name check (the result is the verified success
dictionary). -/
theorem C7_qr_name_threshold (fuzzy : String → String → ℚ)
    (extracted : ParsedData) (user_aadhaar user_name : String) (steps : Steps)
    (hpass : extracted.aadhaar_number = user_aadhaar
      ∨ (user_aadhaar ≠ "" ∧ extracted.aadhaar_number ≠ ""
          ∧ last4 extracted.aadhaar_number = last4 user_aadhaar)) :
    (fuzzy (pyStrip (pyLower user_name)) (pyStrip (pyLower extracted.name)) < 65 / 100 →
      (qr_check fuzzy extracted user_aadhaar user_name steps).1.verified = some false
      ∧ (qr_check fuzzy extracted user_aadhaar user_name steps).1.security_alert = some true
      ∧ (qr_check fuzzy extracted user_aadhaar user_name steps).1.reason
          = some "Name mismatch")
    ∧ (65 / 100 ≤ fuzzy (pyStrip (pyLower user_name)) (pyStrip (pyLower extracted.name)) →
        (qr_check fuzzy extracted user_aadhaar user_name steps).1.verified = some true) := by
  unfold qr_check
  rw [if_neg (by push_neg; intro hno; rcases hpass with h | h; exact absurd h hno; exact h)]
  constructor
  · intro hlow
    rw [if_pos hlow]
    exact ⟨rfl, rfl, rfl⟩
  · intro hhigh
    rw [if_neg (not_lt.mpr hhigh)]

/-- Witness for C7 at a concrete passing identifier and a concrete
similarity oracle. -/
theorem C7_qr_name_threshold_witness :
    ((fun (_ _ : String) => (1 : ℚ)) (pyStrip (pyLower "asha rao")) (pyStrip (pyLower "asha rao")) < 65 / 100 →
      (qr_check (fun _ _ => 1) ⟨"123456789012", "asha rao", "", "", ""⟩
        "123456789012" "asha rao" []).1.verified = some false
      ∧ (qr_check (fun _ _ => 1) ⟨"123456789012", "asha rao", "", "", ""⟩
        "123456789012" "asha rao" []).1.security_alert = some true
      ∧ (qr_check (fun _ _ => 1) ⟨"123456789012", "asha rao", "", "", ""⟩
        "123456789012" "asha rao" []).1.reason = some "Name mismatch")
    ∧ (65 / 100 ≤ (fun (_ _ : String) => (1 : ℚ)) (pyStrip (pyLower "asha rao")) (pyStrip (pyLower "asha rao")) →
        (qr_check (fun _ _ => 1) ⟨"123456789012", "asha rao", "", "", ""⟩
          "123456789012" "asha rao" []).1.verified = some true) :=
  C7_qr_name_threshold (fun _ _ => 1) ⟨"123456789012", "asha rao", "", "", ""⟩
    "123456789012" "asha rao" [] (Or.inl rfl)

/-! ### Multi-language OCR fallback (services.py lines 742-822)

`_verify_aadhaar_multilang_ocr`: OCR attempts over the fixed language
list, first-match extraction of a 12-digit (possibly space-grouped)
identifier via the pattern `\b\d{4}\s*\d{4}\s*\d{4}\b`, substring name
presence, and the 65/50 confidence split.  Tesseract is the oracle
`ocr : String → Except String String` mapping a language pack to the
recognised text (or a raised exception, caught per attempt). -/

/-- A word character for the `\b` boundary of the identifier pattern. -/
def isWordChar (c : Char) : Bool := c.isAlphanum || c = '_'

/-- Take exactly four digits from the front. -/
def grab4 : List Char → Option (List Char × List Char)
  | a :: b :: c :: d :: r =>
    if a.isDigit && b.isDigit && c.isDigit && d.isDigit then some ([a, b, c, d], r)
    else none
  | _ => none

/-- Split a leading run of blanks (`\s*`). -/
def spanSpaces : List Char → List Char × List Char
  | [] => ([], [])
  | c :: r =>
    if isSpaceChar c then
      let p := spanSpaces r
      (c :: p.1, p.2)
    else ([], c :: r)

/-- The trailing `\b`: end of text or a non-word character. -/
def boundaryAfter : List Char → Bool
  | [] => true
  | c :: _ => ¬ isWordChar c

/-- Match `\d{4}\s*\d{4}\s*\d{4}\b` at the current position. -/
def matchAt (cs : List Char) : Option (List Char) :=
  match grab4 cs with
  | none => none
  | some (g1, r1) =>
    let p1 := spanSpaces r1
    match grab4 p1.2 with
    | none => none
    | some (g2, r2) =>
      let p2 := spanSpaces r2
      match grab4 p2.2 with
      | none => none
      | some (g3, r3) =>
        if boundaryAfter r3 then some (g1 ++ p1.1 ++ g2 ++ p2.1 ++ g3) else none

/-- Left-to-right scan for the first match of the identifier pattern; the
flag records whether the previous character was a word character (the
leading `\b`). -/
def findAux : Bool → List Char → Option (List Char)
  | _, [] => none
  | prevW, c :: cs =>
    match if prevW then none else matchAt (c :: cs) with
    | some m => some m
    | none => findAux (isWordChar c) cs

/-- `re.findall(r'\b\d{4}\s*\d{4}\s*\d{4}\b', text)[0]`: the first match
of the Aadhaar-number pattern, if any. -/
def findFirstAadhaar (s : String) : Option String :=
  (findAux false s.data).map (fun l => ⟨l⟩)

/-- Python `m.replace(' ', '')`. -/
def stripSpaces (s : String) : String := ⟨s.data.filter (· ≠ ' ')⟩

/-- The fixed language-pack order of the OCR fallback. -/
def languages_to_try : List String := ["eng+hin", "eng", "hin", "eng+tam", "eng+tel"]

/-- The `for lang in languages_to_try` loop: per-language OCR (exceptions
caught and logged), identifier pattern search, and — on the first hit —
the case-insensitive substring check of the claimed name against the same
recognised text.  Returns the space-stripped identifier and the name flag
of the attempt that broke the loop. -/
def ocrLoop (ocr : String → Except String String) (user_name : String) :
    List String → Steps → Option (String × Bool) × Steps
  | [], st => (none, st)
  | lang :: rest, st =>
    match ocr lang with
    | Except.error _ => ocrLoop ocr user_name rest (st ++ [⟨"OCR_ATTEMPT_" ++ lang, "error"⟩])
    | Except.ok text =>
      let st := st ++ [⟨"OCR_ATTEMPT_" ++ lang, ""⟩]
      match findFirstAadhaar text with
      | none => ocrLoop ocr user_name rest st
      | some m =>
        (some (stripSpaces m, strContains (pyLower text) (pyLower user_name)), st)

/-- `_verify_aadhaar_multilang_ocr` after the image has been opened (the
`MULTILANG_OCR_FALLBACK` step is appended by the caller before
`Image.open`). -/
def verify_multilang_ocr (ocr : String → Except String String)
    (user_aadhaar user_name : String) (steps : Steps) : VDict × Steps :=
  match ocrLoop ocr user_name languages_to_try steps with
  | (some (aadhaar_found, name_found), st) =>
    if aadhaar_found = user_aadhaar then
      ({ verified := some true, confidence := some (if name_found then 65 else 50),
         verification_method := some "MULTILANG_OCR", name_matched := some name_found,
         audit_trail := some st }, st)
    else
      ({ verified := some false, reason := some "Aadhaar number mismatch",
         security_alert := some true, verification_method := some "MULTILANG_OCR",
         audit_trail := some st }, st)
  | (none, st) =>
      ({ verified := some false,
         reason := some "Unable to extract Aadhaar number from image",
         verification_method := some "MULTILANG_OCR", audit_trail := some st }, st)

/-- C8.  In the multi-language OCR fallback, when the language attempt
that stops the loop extracts an identifier that (spaces removed) equals
the claimed identifier, the result is `verified=true` by the
`MULTILANG_OCR` method, with confidence exactly 65 when the claimed name
occurs as a case-insensitive substring of that attempt's recognised text
(the `name_found` flag) and exactly 50 when it does not. -/
theorem C8_ocr_fallback_confidence (ocr : String → Except String String)
    (user_aadhaar user_name : String) (steps : Steps) (idf : String) (name_found : Bool)
    (hloop : (ocrLoop ocr user_name languages_to_try steps).1 = some (idf, name_found))
    (hmatch : idf = user_aadhaar) :
    (verify_multilang_ocr ocr user_aadhaar user_name steps).1.verified = some true
    ∧ (verify_multilang_ocr ocr user_aadhaar user_name steps).1.confidence
        = some (if name_found then 65 else 50)
    ∧ (verify_multilang_ocr ocr user_aadhaar user_name steps).1.verification_method
        = some "MULTILANG_OCR"
    ∧ (verify_multilang_ocr ocr user_aadhaar user_name steps).1.name_matched
        = some name_found := by
  unfold verify_multilang_ocr
  rcases hE : ocrLoop ocr user_name languages_to_try steps with ⟨o, st⟩
  rw [hE] at hloop
  simp only at hloop
  subst hloop
  dsimp only
  rw [if_pos hmatch]
  exact ⟨rfl, rfl, rfl, rfl⟩

/-- Witness for C8: a single OCR attempt recognises text containing
"1234 5678 9012", matching the claimed identifier, with the claimed name
absent, so the confidence is exactly 50. -/
theorem C8_ocr_fallback_confidence_witness :
    (verify_multilang_ocr
        (fun lang => if lang = "eng+hin" then Except.ok "id 1234 5678 9012 govt" else Except.error "boom")
        "123456789012" "Kiran Kumar" []).1.verified = some true
    ∧ (verify_multilang_ocr
        (fun lang => if lang = "eng+hin" then Except.ok "id 1234 5678 9012 govt" else Except.error "boom")
        "123456789012" "Kiran Kumar" []).1.confidence = some (if false then 65 else 50)
    ∧ (verify_multilang_ocr
        (fun lang => if lang = "eng+hin" then Except.ok "id 1234 5678 9012 govt" else Except.error "boom")
        "123456789012" "Kiran Kumar" []).1.verification_method = some "MULTILANG_OCR"
    ∧ (verify_multilang_ocr
        (fun lang => if lang = "eng+hin" then Except.ok "id 1234 5678 9012 govt" else Except.error "boom")
        "123456789012" "Kiran Kumar" []).1.name_matched = some false :=
  C8_ocr_fallback_confidence
    (fun lang => if lang = "eng+hin" then Except.ok "id 1234 5678 9012 govt" else Except.error "boom")
    "123456789012" "Kiran Kumar" [] "123456789012" false (by decide) (by decide)

/-- C3.  Mismatch rejections carry the security alert while the pure
"not found" outcome does not: on the QR path every `verified=false`
result of the identifier/name cross-check sets `security_alert=true`, and
on the OCR fallback the "Aadhaar number mismatch" rejection sets
`security_alert=true` whereas the "Unable to extract Aadhaar number from
image" result leaves the `security_alert` key absent. -/
theorem C3_security_alert_semantics (fuzzy : String → String → ℚ)
    (extracted : ParsedData) (ua un : String) (steps : Steps)
    (ocr : String → Except String String) (ua2 un2 : String) (steps2 : Steps) :
    ((qr_check fuzzy extracted ua un steps).1.verified = some false →
      (qr_check fuzzy extracted ua un steps).1.security_alert = some true)
    ∧ ((verify_multilang_ocr ocr ua2 un2 steps2).1.reason = some "Aadhaar number mismatch" →
        (verify_multilang_ocr ocr ua2 un2 steps2).1.security_alert = some true)
    ∧ ((verify_multilang_ocr ocr ua2 un2 steps2).1.reason
          = some "Unable to extract Aadhaar number from image" →
        (verify_multilang_ocr ocr ua2 un2 steps2).1.security_alert = none) := by
  refine ⟨?_, ?_, ?_⟩
  · unfold qr_check
    dsimp only
    split
    · intro _; rfl
    · split
      · intro _; rfl
      · intro h; simp at h
  · unfold verify_multilang_ocr
    rcases ocrLoop ocr un2 languages_to_try steps2 with ⟨o, st⟩
    match o with
    | some (idf, nf) =>
      dsimp only
      by_cases hid : idf = ua2
      · rw [if_pos hid]; intro h; simp at h
      · rw [if_neg hid]; intro _; rfl
    | none => intro h; simp at h
  · unfold verify_multilang_ocr
    rcases ocrLoop ocr un2 languages_to_try steps2 with ⟨o, st⟩
    match o with
    | some (idf, nf) =>
      dsimp only
      by_cases hid : idf = ua2
      · rw [if_pos hid]; intro h; simp at h
      · rw [if_neg hid]; intro h; simp at h
    | none => intro _; rfl

/-- Witness for C3 at concrete inputs (a QR-path name mismatch and an OCR
run that finds no identifier). -/
theorem C3_security_alert_semantics_witness :
    ((qr_check (fun _ _ => 0) ⟨"123456789012", "someone else", "", "", ""⟩
        "123456789012" "Asha Rao" []).1.verified = some false →
      (qr_check (fun _ _ => 0) ⟨"123456789012", "someone else", "", "", ""⟩
        "123456789012" "Asha Rao" []).1.security_alert = some true)
    ∧ ((verify_multilang_ocr (fun _ => Except.ok "no digits here")
          "123456789012" "Asha Rao" []).1.reason = some "Aadhaar number mismatch" →
        (verify_multilang_ocr (fun _ => Except.ok "no digits here")
          "123456789012" "Asha Rao" []).1.security_alert = some true)
    ∧ ((verify_multilang_ocr (fun _ => Except.ok "no digits here")
          "123456789012" "Asha Rao" []).1.reason
            = some "Unable to extract Aadhaar number from image" →
        (verify_multilang_ocr (fun _ => Except.ok "no digits here")
          "123456789012" "Asha Rao" []).1.security_alert = none) :=
  C3_security_alert_semantics (fun _ _ => 0) ⟨"123456789012", "someone else", "", "", ""⟩
    "123456789012" "Asha Rao" [] (fun _ => Except.ok "no digits here")
    "123456789012" "Asha Rao" []

/-! ### QR locator cascade (services.py lines 526-708)

The three locator functions.  Decoder outputs are oracle inputs:
`detectAndDecode` results are the `String`s the OpenCV detector returned
(empty string = nothing found, so `if data and len(data) > 50` is exactly
`50 < length`), and pyzbar results are the decoded barcode objects. -/

/-- A pyzbar decoded object: its `type` tag and `data` payload (bytes and
str payloads are both modelled as `String`). -/
structure BarObj where
  type : String
  data : String
deriving DecidableEq, Repr

/-- `_parse_qr_objects` (lines 615-638): scan the decoded objects, return
the first `QRCODE` payload longer than 50, logging the extraction step.
The `data.decode('utf-8', errors='ignore')` call cannot raise, so the
inner `except` branch is dead and not modelled. -/
def parse_qr_objects (steps : Steps) : List BarObj → Option String × Steps
  | [] => (none, steps)
  | o :: rest =>
    if o.type = "QRCODE" then
      if 50 < o.data.length then
        (some o.data, steps ++ [⟨"QR_DATA_EXTRACTED", "success"⟩])
      else parse_qr_objects steps rest
    else parse_qr_objects steps rest

/-- Oracle inputs of `_extract_qr_with_opencv`: the four
`detectAndDecode` results (original, grayscale, CLAHE-enhanced, 2x
upscaled) and an optional exception raised by the cv2 calls (modelled as
raised on entry). -/
structure OcvEnv where
  exn : Option String := none
  d1 : String := ""
  d2 : String := ""
  d3 : String := ""
  d4 : String := ""
deriving Repr

/-- `_extract_qr_with_opencv` (lines 640-708): four OpenCV attempts in
order, each accepted only when longer than 50; `None` with a
`no_qr_found` step otherwise; any cv2 exception is caught and logged. -/
def extract_qr_with_opencv (env : OcvEnv) (steps : Steps) : Option String × Steps :=
  match env.exn with
  | some _ => (none, steps ++ [⟨"QR_EXTRACTION_OPENCV", "error"⟩])
  | none =>
    if 50 < env.d1.length then
      (some env.d1, steps ++ [⟨"QR_EXTRACTION_OPENCV", "opencv_qr_detector_direct"⟩])
    else if 50 < env.d2.length then
      (some env.d2, steps ++ [⟨"QR_EXTRACTION_OPENCV", "opencv_qr_detector_grayscale"⟩])
    else if 50 < env.d3.length then
      (some env.d3, steps ++ [⟨"QR_EXTRACTION_OPENCV", "opencv_qr_detector_enhanced"⟩])
    else if 50 < env.d4.length then
      (some env.d4, steps ++ [⟨"QR_EXTRACTION_OPENCV", "opencv_qr_detector_upscaled"⟩])
    else (none, steps ++ [⟨"QR_EXTRACTION_OPENCV", "no_qr_found"⟩])

/-- Oracle inputs of `_detect_qr_enhanced`: OpenCV `detectAndDecode`
results on the original (`m1`), grayscale (`m3`), adaptive-threshold
(`m4`), Otsu (`m5`), inverted (`m6`) and CLAHE (`m7`) images; the first
pyzbar barcode payload on the original image (`pzOrig`, `none` when the
barcode list is empty); and the first pyzbar payloads on the five
processed images (`pv1`-`pv5`). -/
structure DetEnv where
  hasPyzbar : Bool := true
  m1 : String := ""
  pzOrig : Option String := none
  m3 : String := ""
  m4 : String := ""
  m5 : String := ""
  m6 : String := ""
  m7 : String := ""
  pv1 : Option String := none
  pv2 : Option String := none
  pv3 : Option String := none
  pv4 : Option String := none
  pv5 : Option String := none
deriving Repr

/-- `_detect_qr_enhanced` (lines 526-590): the 9+ method cascade.  Every
OpenCV attempt is guarded by `len(data) > 50`, but the pyzbar attempts
(`return barcodes[0].data`) have no length guard. -/
def detect_qr_enhanced (env : DetEnv) : Option String :=
  if 50 < env.m1.length then some env.m1
  else
    match (if env.hasPyzbar then env.pzOrig else none) with
    | some d => some d
    | none =>
      if 50 < env.m3.length then some env.m3
      else if 50 < env.m4.length then some env.m4
      else if 50 < env.m5.length then some env.m5
      else if 50 < env.m6.length then some env.m6
      else if 50 < env.m7.length then some env.m7
      else if env.hasPyzbar then
        firstSome [env.pv1, env.pv2, env.pv3, env.pv4, env.pv5]
      else none

/-- OpenCV qualification: a `detectAndDecode` string counts only when
longer than 50. -/
def ocvHit (s : String) : Option String := if 50 < s.length then some s else none

/-- The ordered attempt outcomes of `_detect_qr_enhanced`: OpenCV
attempts filtered through the 50-byte guard, pyzbar attempts taken as
decoded. -/
def det_attempts (env : DetEnv) : List (Option String) :=
  [ocvHit env.m1]
    ++ (if env.hasPyzbar then [env.pzOrig] else [])
    ++ [ocvHit env.m3, ocvHit env.m4, ocvHit env.m5, ocvHit env.m6, ocvHit env.m7]
    ++ (if env.hasPyzbar then [env.pv1, env.pv2, env.pv3, env.pv4, env.pv5] else [])

/-- The qualification predicate of `_parse_qr_objects` per decoded
object. -/
def qrObjHit (o : BarObj) : Option String :=
  if o.type = "QRCODE" ∧ 50 < o.data.length then some o.data else none

lemma parse_qr_objects_first (steps : Steps) (objs : List BarObj) :
    (parse_qr_objects steps objs).1 = firstSome (objs.map qrObjHit) := by
  induction objs with
  | nil => rfl
  | cons o rest ih =>
    unfold parse_qr_objects qrObjHit
    by_cases ht : o.type = "QRCODE"
    · by_cases hl : 50 < o.data.length
      · rw [if_pos ht]
        rw [if_pos hl]
        simp [firstSome, ht, hl]
      · rw [if_pos ht, if_neg hl]
        simp only [List.map_cons]
        rw [show (if o.type = "QRCODE" ∧ 50 < o.data.length then some o.data else none) = none
          from if_neg (by tauto)]
        simpa [firstSome] using ih
    · rw [if_neg ht]
      simp only [List.map_cons]
      rw [show (if o.type = "QRCODE" ∧ 50 < o.data.length then some o.data else none) = none
        from if_neg (by tauto)]
      simpa [firstSome] using ih

lemma firstSome_mem_hit (l : List (Option String)) (p : String)
    (h : firstSome l = some p) : some p ∈ l := by
  induction l with
  | nil => simp [firstSome] at h
  | cons o rest ih =>
    match o with
    | none => simp [firstSome] at h; simp [ih h]
    | some d => simp [firstSome] at h; simp [h]

@[simp] lemma firstSome_nil : firstSome [] = none := rfl

@[simp] lemma firstSome_cons_none (l : List (Option String)) :
    firstSome (none :: l) = firstSome l := rfl

@[simp] lemma firstSome_cons_some (d : String) (l : List (Option String)) :
    firstSome (some d :: l) = some d := rfl

/-- C4 (amended).  The locator cascade is first-match: each of the three
functions returns the first qualifying payload of its fixed attempt
order and stops there.  The 50-byte plausibility guard holds for every
payload returned by `_parse_qr_objects` and `_extract_qr_with_opencv`
and for the OpenCV attempts of `_detect_qr_enhanced`, but the pyzbar
attempts of `_detect_qr_enhanced` return the first decoded barcode with
no length guard, so that function can return a payload of 50 bytes or
fewer. -/
theorem C4_qr_cascade (env : DetEnv) (oe : OcvEnv) (objs : List BarObj) (steps : Steps) :
    ((parse_qr_objects steps objs).1 = firstSome (objs.map qrObjHit))
    ∧ (∀ p, (parse_qr_objects steps objs).1 = some p → 50 < p.length)
    ∧ (oe.exn = none →
        (extract_qr_with_opencv oe steps).1
          = firstSome [ocvHit oe.d1, ocvHit oe.d2, ocvHit oe.d3, ocvHit oe.d4])
    ∧ (∀ p, (extract_qr_with_opencv oe steps).1 = some p → 50 < p.length)
    ∧ (detect_qr_enhanced env = firstSome (det_attempts env)) := by
  refine ⟨parse_qr_objects_first steps objs, ?_, ?_, ?_, ?_⟩
  · intro p hp
    rw [parse_qr_objects_first steps objs] at hp
    have hmem := firstSome_mem_hit _ p hp
    obtain ⟨o, ho_mem, ho⟩ := List.mem_map.mp hmem
    unfold qrObjHit at ho
    by_cases hq : o.type = "QRCODE" ∧ 50 < o.data.length
    · rw [if_pos hq] at ho
      cases ho
      exact hq.2
    · rw [if_neg hq] at ho
      exact Option.noConfusion ho
  · intro hexn
    unfold extract_qr_with_opencv
    rw [hexn]
    unfold ocvHit
    by_cases h1 : 50 < oe.d1.length
    · simp [h1]
    · by_cases h2 : 50 < oe.d2.length
      · simp [h1, h2]
      · by_cases h3 : 50 < oe.d3.length
        · simp [h1, h2, h3]
        · by_cases h4 : 50 < oe.d4.length
          · simp [h1, h2, h3, h4]
          · simp [h1, h2, h3, h4]
  · intro p hp
    unfold extract_qr_with_opencv at hp
    match he : oe.exn with
    | some e => rw [he] at hp; simp at hp
    | none =>
      rw [he] at hp
      by_cases h1 : 50 < oe.d1.length
      · simp [h1] at hp; exact hp ▸ h1
      · by_cases h2 : 50 < oe.d2.length
        · simp [h1, h2] at hp; exact hp ▸ h2
        · by_cases h3 : 50 < oe.d3.length
          · simp [h1, h2, h3] at hp; exact hp ▸ h3
          · by_cases h4 : 50 < oe.d4.length
            · simp [h1, h2, h3, h4] at hp; exact hp ▸ h4
            · simp [h1, h2, h3, h4] at hp
  · unfold detect_qr_enhanced det_attempts ocvHit
    by_cases h1 : 50 < env.m1.length
    · simp [h1]
    · rw [if_neg h1]
      by_cases hpz : env.hasPyzbar
      · simp only [hpz, if_true]
        match hz : env.pzOrig with
        | some d => simp [h1]
        | none =>
          by_cases h3 : 50 < env.m3.length
          · simp [h1, h3]
          · by_cases h4 : 50 < env.m4.length
            · simp [h1, h3, h4]
            · by_cases h5 : 50 < env.m5.length
              · simp [h1, h3, h4, h5]
              · by_cases h6 : 50 < env.m6.length
                · simp [h1, h3, h4, h5, h6]
                · by_cases h7 : 50 < env.m7.length
                  · simp [h1, h3, h4, h5, h6, h7]
                  · simp [h1, h3, h4, h5, h6, h7]
      · simp only [hpz, if_false]
        by_cases h3 : 50 < env.m3.length
        · simp [h1, h3]
        · by_cases h4 : 50 < env.m4.length
          · simp [h1, h3, h4]
          · by_cases h5 : 50 < env.m5.length
            · simp [h1, h3, h4, h5]
            · by_cases h6 : 50 < env.m6.length
              · simp [h1, h3, h4, h5, h6]
              · by_cases h7 : 50 < env.m7.length
                · simp [h1, h3, h4, h5, h6, h7]
                · simp [h1, h3, h4, h5, h6, h7]

/-- Witness for C4's amended theorem at a concrete environment. -/
theorem C4_qr_cascade_witness :
    ((parse_qr_objects [] [⟨"QRCODE", "short"⟩]).1
        = firstSome (([⟨"QRCODE", "short"⟩] : List BarObj).map qrObjHit))
    ∧ (∀ p, (parse_qr_objects [] [⟨"QRCODE", "short"⟩]).1 = some p → 50 < p.length)
    ∧ (({ } : OcvEnv).exn = none →
        (extract_qr_with_opencv { } []).1
          = firstSome [ocvHit ({ } : OcvEnv).d1, ocvHit ({ } : OcvEnv).d2,
              ocvHit ({ } : OcvEnv).d3, ocvHit ({ } : OcvEnv).d4])
    ∧ (∀ p, (extract_qr_with_opencv { } []).1 = some p → 50 < p.length)
    ∧ (detect_qr_enhanced { } = firstSome (det_attempts { })) :=
  C4_qr_cascade { } { } [⟨"QRCODE", "short"⟩] []

/-- Counterexample to C4 as stated: with the OpenCV attempts empty and a
3-byte pyzbar barcode on the original image, `_detect_qr_enhanced`
returns that 3-byte payload, which does not exceed the 50-byte
minimum-plausibility threshold. -/
theorem C4_counterexample :
    detect_qr_enhanced { pzOrig := some "abc" } = some "abc"
    ∧ ¬ 50 < ("abc" : String).length := by
  constructor
  · rfl
  · decide

/-! ### `_extract_and_verify_aadhaar_qr` wiring (services.py lines 302-524)

The locator section of `_extract_and_verify_aadhaar_qr` composes the
enhanced detector (PDF inputs), the two pyzbar attempts and the OpenCV
fallback, then hands the payload to the universal parser and the
identifier/name cross-check.  `_parse_aadhaar_qr_enhanced` (XML, zlib and
base64 handling through external libraries) is the oracle
`parseQr : String → ParsedData`; a parse that yields no Aadhaar number is
a `ParsedData` with an empty `aadhaar_number`. -/

/-- Oracle inputs of the locator section. -/
structure LocEnv where
  /-- `file_ext == '.pdf' or file_path.lower().endswith('.pdf')`. -/
  isPdf : Bool := false
  /-- Exception raised inside `self._detect_qr_enhanced(image)`, caught at
  lines 336-341. -/
  enhExn : Option String := none
  det : DetEnv := { }
  /-- `pyzbar is not None`. -/
  hasPyzbar : Bool := true
  /-- `pyzbar.decode(image)` on the original image: the decoded objects,
  or a raised exception. -/
  pzImg : Except String (List BarObj) := Except.ok []
  /-- `pyzbar.decode(gray)` on the grayscale image. -/
  pzGray : Except String (List BarObj) := Except.ok []
  ocv : OcvEnv := { }

/-- The pyzbar attempt on one image (lines 351-364 / 368-382): decode,
and when objects came back, filter them through `_parse_qr_objects`,
logging `PYZBAR_SUCCESS` with the method tag on a hit. -/
def pyzbar_attempt (dec : Except String (List BarObj)) (methodTag errTag : String)
    (steps : Steps) : Option String × Steps :=
  match dec with
  | Except.error _ => (none, steps ++ [⟨errTag, "error"⟩])
  | Except.ok objs =>
    if objs = [] then (none, steps)
    else
      match parse_qr_objects steps objs with
      | (some d, st) => (some d, st ++ [⟨"PYZBAR_SUCCESS", methodTag⟩])
      | (none, st) => (none, st)

/-- Lines 324-396: the locator cascade of
`_extract_and_verify_aadhaar_qr` (enhanced PDF detection, pyzbar on the
original then grayscale image, OpenCV detector). -/
def qr_locate (env : LocEnv) (steps : Steps) : Option String × Steps :=
  let r1 : Option String × Steps :=
    if env.isPdf then
      let st := steps ++ [⟨"TRYING_ENHANCED_PDF_QR_DETECTION", "started"⟩]
      match env.enhExn with
      | some _ => (none, st ++ [⟨"ENHANCED_PDF_QR_DETECTION", "failed"⟩])
      | none => (detect_qr_enhanced env.det, st)
    else (none, steps)
  let r2 : Option String × Steps :=
    if ¬ truthy r1.1 ∧ env.hasPyzbar then
      let st := r1.2 ++ [⟨"TRYING_PYZBAR", "started"⟩]
      let a1 := pyzbar_attempt env.pzImg "direct_image" "PYZBAR_ERROR" st
      if truthy a1.1 then a1
      else pyzbar_attempt env.pzGray "grayscale_image" "PYZBAR_GRAYSCALE_ERROR" a1.2
    else if ¬ truthy r1.1 then (r1.1, r1.2 ++ [⟨"PYZBAR_NOT_AVAILABLE", ""⟩])
    else r1
  if truthy r2.1 then r2
  else
    let st := r2.2 ++ [⟨"TRYING_OPENCV_DETECTOR", "started"⟩]
    extract_qr_with_opencv env.ocv st

/-- Oracle inputs of `_extract_and_verify_aadhaar_qr`. -/
structure QrEnv where
  loc : LocEnv := { }
  /-- `_parse_aadhaar_qr_enhanced`: XML/zlib/base64 parsing oracle. -/
  parseQr : String → ParsedData := fun _ => { }
  /-- `SequenceMatcher(None, a, b).ratio()`. -/
  fuzzy : String → String → ℚ := fun _ _ => 0

/-- `_extract_and_verify_aadhaar_qr` (lines 302-524): locate, parse,
cross-check.  An empty dict (`VDict` with all fields `none`) triggers the
OCR fallback in the caller. -/
def extract_and_verify (env : QrEnv) (user_aadhaar user_name : String)
    (steps : Steps) : VDict × Steps :=
  let st0 := steps ++ [⟨"QR_EXTRACTION_ATTEMPT", "started"⟩]
  let loc := qr_locate env.loc st0
  if ¬ truthy loc.1 then
    ({ }, loc.2 ++ [⟨"QR_EXTRACTION", "failed_all_methods"⟩])
  else
    let st1 := loc.2 ++ [⟨"QR_EXTRACTION", "success"⟩]
    let extracted := env.parseQr (loc.1.getD "")
    if extracted.aadhaar_number = "" then
      ({ }, st1 ++ [⟨"QR_PARSING", "failed"⟩])
    else
      qr_check env.fuzzy extracted user_aadhaar user_name
        (st1 ++ [⟨"QR_PARSING", "success"⟩])

/-! ### `verify_aadhaar_card` (services.py lines 227-300)

The per-request body runs inside one `try`; an exception escaping the
inner handlers (for example `Image.open` failing at the start of the OCR
fallback, line 757) reaches the outer handler, which returns the
`Verification failed:` dict.  The body is an `Except` whose error carries
the step list visible to the handler through the mutable agent state. -/

/-- The process-wide `DocumentVerificationAgent`: its only state is the
mutable `verification_steps` attribute. -/
structure Agent where
  verification_steps : Steps := []
deriving DecidableEq, Repr

/-- Oracle inputs of one `verify_aadhaar_card` request. -/
structure AadhaarEnv where
  /-- `os.path.splitext(file_path)[1].lower()`. -/
  file_ext : String := ".jpg"
  /-- `render_pdf_to_image` + colour conversion (PDF inputs only). -/
  pdfConvert : Except String Unit := Except.ok ()
  /-- `cv2.imread(file_path) is not None`. -/
  imreadOk : Bool := true
  qr : QrEnv := { }
  /-- `Image.open(file_path)` at the start of the OCR fallback. -/
  ocrImageOpen : Except String Unit := Except.ok ()
  /-- `pytesseract.image_to_string(image, lang=...)` per language pack. -/
  ocr : String → Except String String := fun _ => Except.ok ""

/-- Lines 282-293: QR attempt, then multi-language OCR fallback; the
`MULTILANG_OCR_FALLBACK` step precedes `Image.open`, whose exception
escapes to the outer handler. -/
def aadhaar_after_image (env : AadhaarEnv) (user_aadhaar user_name : String)
    (steps : Steps) : Except (String × Steps) (VDict × Steps) :=
  let qr := extract_and_verify env.qr user_aadhaar user_name steps
  if qr.1.verified ≠ none then Except.ok qr
  else
    let st := qr.2 ++ [⟨"MULTILANG_OCR_FALLBACK", ""⟩]
    match env.ocrImageOpen with
    | Except.error e => Except.error (e, st)
    | Except.ok _ => Except.ok (verify_multilang_ocr env.ocr user_aadhaar user_name st)

/-- The `try` body of `verify_aadhaar_card` (lines 238-293), starting from
the `self.verification_steps = []` reset. -/
def aadhaar_body (env : AadhaarEnv) (user_aadhaar user_name : String) :
    Except (String × Steps) (VDict × Steps) :=
  let steps : Steps := []
  if env.file_ext = ".pdf" then
    let st1 := steps ++ [⟨"PDF_DETECTION", "detected"⟩]
    match env.pdfConvert with
    | Except.error e =>
      let st2 := st1 ++ [⟨"PDF_CONVERSION", "failed"⟩]
      Except.ok ({ verified := some false,
                   error := some ("PDF conversion failed: " ++ e),
                   audit_trail := some st2 }, st2)
    | Except.ok _ =>
      aadhaar_after_image env user_aadhaar user_name
        (st1 ++ [⟨"PDF_CONVERSION", "success"⟩])
  else
    if env.imreadOk then aadhaar_after_image env user_aadhaar user_name steps
    else
      Except.ok ({ verified := some false, error := some "Unable to read image file",
                   audit_trail := some steps }, steps)

/-- `verify_aadhaar_card` (lines 227-300): the body under the outer
`try`/`except`; the returned `Agent` carries the `verification_steps`
attribute left on the shared instance. -/
def verify_aadhaar_card (_agent : Agent) (env : AadhaarEnv)
    (user_aadhaar user_name : String) : VDict × Agent :=
  match aadhaar_body env user_aadhaar user_name with
  | Except.ok (d, st) => (d, ⟨st⟩)
  | Except.error (e, st) =>
    ({ verified := some false, error := some ("Verification failed: " ++ e),
       audit_trail := some st }, ⟨st⟩)

/-! ### `verify_income_certificate` (services.py lines 824-961) -/

/-- The English income-certificate keywords; the nine regional-language
keyword lists are opaque non-ASCII data irrelevant to every claim and are
carried as an oracle field. -/
def income_english_keywords : List String :=
  ["income", "certificate", "annual", "year", "government", "tehsildar",
   "revenue", "valid", "financial"]

/-- Oracle inputs of `verify_income_certificate`. -/
structure IncomeEnv where
  /-- `Image.open(file_path)` (inside the outer `try`). -/
  imageOpen : Except String Unit := Except.ok ()
  /-- Outcome of the OCR language-pack fallback chain (lines 845-854): the
  recognised text, or the exception the innermost attempt re-raises. -/
  ocrText : Except String String := Except.ok ""
  /-- `get_name_variations` (network transliteration; total because its
  failures are caught and degrade to the lower-cased input). -/
  translit : String → List String := fun s => [pyLower s]
  /-- The regional-language keyword lists of the universal database. -/
  regionalKeywords : List String := []

/-- The transliteration-plus-token name matching of
`verify_income_certificate` (lines 896-925): full-name variations first,
then part-by-part with all parts required, or all but one for names of
three or more parts. -/
def income_name_found (translit : String → List String) (user_name tl : String) : Bool :=
  let name_variations := translit user_name
  if name_variations.any (fun v => strContains tl v) then true
  else
    let user_parts := pySplit user_name
    if 0 < user_parts.length then
      let part_matches :=
        countP user_parts (fun p => (translit p).any (fun v => strContains tl v))
      if part_matches = user_parts.length then true
      else if 3 ≤ user_parts.length ∧ user_parts.length - 1 ≤ part_matches then true
      else false
    else false

/-- `verify_income_certificate`: keyword scoring over the universal
database (`min((matches/3)*100, 95)`), transliterated name matching, and
the `confidence >= 25 and name_found` verdict; all failure paths carry
the audit trail. -/
def verify_income_certificate (_agent : Agent) (env : IncomeEnv)
    (user_name : String) : VDict × Agent :=
  let st0 : Steps := [⟨"INCOME_CERT_VERIFICATION", "started"⟩]
  match env.imageOpen with
  | Except.error e =>
    ({ verified := some false, error := some e, audit_trail := some st0 }, ⟨st0⟩)
  | Except.ok _ =>
    match env.ocrText with
    | Except.error e =>
      ({ verified := some false, error := some e, audit_trail := some st0 }, ⟨st0⟩)
    | Except.ok text =>
      let st1 := st0 ++ [⟨"OCR_EXTRACTION", "universal_10_lang"⟩]
      let tl := pyLower text
      let kwMatches :=
        countP (income_english_keywords ++ env.regionalKeywords) (fun kw => strContains tl kw)
      let confidence : ℚ := min ((kwMatches : ℚ) / 3 * 100) 95
      let name_found := income_name_found env.translit user_name tl
      let st2 := st1 ++
        [⟨"NAME_MATCHING_TRANSLITERATED", if name_found then "match" else "mismatch"⟩]
      let isVerified : Bool := decide (25 ≤ confidence) && name_found
      let base : VDict :=
        { verified := some isVerified,
          verification_method := some "UNIVERSAL_MULTILANG_OCR_PLUS_TRANSLITERATION",
          confidence := some confidence, name_matched := some name_found,
          audit_trail := some st2 }
      if isVerified then (base, ⟨st2⟩)
      else if ¬ name_found then
        ({ base with reason := some "Name mismatch" }, ⟨st2⟩)
      else ({ base with reason := some "Low confidence" }, ⟨st2⟩)

/-! ### `verify_caste_certificate` (services.py lines 967-1123) -/

/-- The English caste-certificate keywords (the divisor of the confidence
formula is this list's length, 8). -/
def caste_english_keywords : List String :=
  ["caste", "certificate", "scheduled caste", "scheduled tribe", "sc", "st",
   "government", "community"]

/-- The state-to-language-pack table of `_verify_caste_multilang_ocr`. -/
def lang_map : List (String × String) :=
  [("tamil nadu", "eng+tam"), ("telangana", "eng+tel"), ("andhra pradesh", "eng+tel"),
   ("karnataka", "eng+kan"), ("kerala", "eng+mal"), ("maharashtra", "eng+mar"),
   ("gujarat", "eng+guj"), ("punjab", "eng+pan"), ("west bengal", "eng+ben")]

/-- `dict.get(key, default)` over an association list. -/
def lookupDefault : List (String × String) → String → String → String
  | [], _, d => d
  | (k, v) :: rest, key, d => if k = key then v else lookupDefault rest key d

/-- The caste-marker list scanned for `extracted_caste`. -/
def common_castes : List String :=
  ["sc", "st", "obc", "general", "scheduled caste", "scheduled tribe", "maratha",
   "kunbi", "mahar", "chamar", "valmiki"]

/-- Oracle inputs of `verify_caste_certificate`. -/
structure CasteEnv where
  /-- `_extract_qr_code(image)`: pyzbar QR payload, `None` on
  failure/absence (its bare `except` swallows everything). -/
  qrData : Option String := none
  /-- `Image.open(file_path)` in `_verify_caste_multilang_ocr` (outside
  that helper's `try`, so its exception reaches the outer handler). -/
  imageOpen : Except String Unit := Except.ok ()
  /-- `pytesseract.image_to_string(image, lang=lang)` per language pack. -/
  text : String → Except String String := fun _ => Except.ok ""
  /-- `get_name_variations`. -/
  translit : String → List String := fun s => [pyLower s]
  /-- Hindi/Marathi keyword lists (opaque non-ASCII data). -/
  regionalKeywords : List String := []

/-- Name matching of `_verify_caste_multilang_ocr` (lines 1057-1079):
like the income version but parts are only consulted for names of two or
more tokens, with the all-but-one relaxation above two tokens. -/
def caste_name_found (translit : String → List String) (user_name tl : String) : Bool :=
  let name_variations := translit user_name
  if name_variations.any (fun v => strContains tl v) then true
  else
    let user_parts := pySplit user_name
    if 1 < user_parts.length then
      let part_matches :=
        countP user_parts (fun p => (translit p).any (fun v => strContains tl v))
      if part_matches = user_parts.length ∨
          (2 < user_parts.length ∧ user_parts.length - 1 ≤ part_matches) then true
      else false
    else false

/-- `_verify_caste_multilang_ocr` (lines 1004-1123) as an `Except` whose
error is the `Image.open` exception escaping to the caller's handler. -/
def caste_multilang_ocr (env : CasteEnv) (user_name : String) (state : Option String)
    (steps : Steps) : Except (String × Steps) (VDict × Steps) :=
  match env.imageOpen with
  | Except.error e => Except.error (e, steps)
  | Except.ok _ =>
    let lang := lookupDefault lang_map
      (if truthy state then pyLower (state.getD "") else "") "eng+hin"
    match env.text lang with
    | Except.error e =>
      Except.ok ({ verified := some false, error := some e,
                   audit_trail := some steps }, steps)
    | Except.ok text =>
      let tl := pyLower text
      let kwMatches :=
        countP (caste_english_keywords ++ env.regionalKeywords) (fun kw => strContains tl kw)
      let confidence : ℚ := min ((kwMatches : ℚ) / 8 * 100) 95
      let name_found := caste_name_found env.translit user_name tl
      if decide (30 ≤ confidence) && name_found then
        Except.ok ({ verified := some true, confidence := some (min confidence 85),
                     verification_method := some "MULTILANG_OCR_TRANSLITERATION",
                     name_matched := some name_found, audit_trail := some steps }, steps)
      else
        Except.ok ({ verified := some false,
                     reason := some (if ¬ name_found then "Insufficient evidence"
                                     else "Document type unclear"),
                     confidence := some confidence, name_matched := some name_found,
                     audit_trail := some steps }, steps)

/-- `verify_caste_certificate` (lines 967-1002): QR + mock API Setu check
first (confidence 85 when the payload is longer than 50), then the
multilingual OCR fallback, all under the outer `try`/`except`. -/
def verify_caste_certificate (_agent : Agent) (env : CasteEnv)
    (user_name : String) (state : Option String) : VDict × Agent :=
  let steps : Steps := []
  let result :=
    if truthy env.qrData then
      let st := steps ++ [⟨"MOCK_API_SETU_CALL", "caste_certificate"⟩]
      if 50 < (env.qrData.getD "").length then
        Except.ok ({ verified := some true, confidence := some 85,
                     verification_method := some "QR_VALIDATION",
                     audit_trail := some st }, st)
      else caste_multilang_ocr env user_name state st
    else caste_multilang_ocr env user_name state steps
  match result with
  | Except.ok (d, st) => (d, ⟨st⟩)
  | Except.error (e, st) =>
    ({ verified := some false, error := some e, audit_trail := some st }, ⟨st⟩)

/-! ### `_verify_document_basic_ocr` and the orchestrator
(services.py lines 1301-1417) -/

/-- The keyword table of `_verify_document_basic_ocr`. -/
def keywords_map (document_type : String) : List String :=
  if document_type = "income_certificate" then
    ["income", "certificate", "annual income", "government", "revenue",
     "district", "magistrate", "financial year"]
  else if document_type = "fir_copy" then
    ["fir", "first information report", "police station", "complaint",
     "case", "section", "ipc", "accused"]
  else []

/-- Oracle input of `_verify_document_basic_ocr`: `Image.open` plus
`image_to_string`, collapsed to the recognised text or the raised
exception. -/
structure BasicEnv where
  text : Except String String := Except.ok ""

/-- `_verify_document_basic_ocr` (lines 1370-1417).  No `audit_trail` key
appears on any of its return paths. -/
def verify_document_basic_ocr (env : BasicEnv) (document_type user_name : String) : VDict :=
  match env.text with
  | Except.error e =>
    { verified := some false, error := some e, confidence := some 0 }
  | Except.ok text =>
    let tl := pyLower text
    let required := keywords_map document_type
    let kwMatches := countP required (fun kw => strContains tl kw)
    let confidence : ℚ :=
      if 0 < required.length then (kwMatches : ℚ) / required.length * 100 else 0
    let name_found := strContains tl (pyLower user_name)
    { verified := some (decide (40 ≤ confidence) && name_found),
      confidence := some confidence, verification_method := some "BASIC_OCR",
      name_matched := some name_found }

/-- The caller-supplied user record consulted by the orchestrator. -/
structure UserRec where
  aadhaar_number : Option String := none
  full_name : String := ""
  address : Option String := none

/-- Oracle inputs of one `verify_document_with_ocr` call.  `interrupt`
models a runtime exception raised by the dispatch glue inside the outer
`try` (for example attribute access on an invalid user object) before a
sub-verifier returns. -/
structure OrchEnv where
  interrupt : Option String := none
  aadhaarEnv : AadhaarEnv := { }
  casteEnv : CasteEnv := { }
  incomeEnv : IncomeEnv := { }
  basicEnv : BasicEnv := { }

/-- `user.address.split(',')[-1].strip()` (the split of a string is never
empty, so `if address_parts` always passes). -/
def state_from_address (address : String) : String :=
  pyStrip ((address.splitOn ",").getLastD "")

/-- The `try` body of `verify_document_with_ocr` (lines 1319-1361):
per-document-type dispatch. -/
def orch_dispatch (agent : Agent) (document_type : String) (user : UserRec)
    (env : OrchEnv) : VDict × Agent :=
  if document_type = "aadhaar" then
    if ¬ truthy user.aadhaar_number then
      ({ verified := some false,
         error := some "User Aadhaar number not registered in profile" }, agent)
    else
      verify_aadhaar_card agent env.aadhaarEnv (user.aadhaar_number.getD "") user.full_name
  else if document_type = "caste_certificate" then
    verify_caste_certificate agent env.casteEnv user.full_name
      (user.address.map state_from_address)
  else if document_type = "income_certificate" then
    verify_income_certificate agent env.incomeEnv user.full_name
  else if document_type = "fir_copy" then
    (verify_document_basic_ocr env.basicEnv "fir_copy" user.full_name, agent)
  else
    ({ verified := some false,
       error := some ("Unsupported document type: " ++ document_type) }, agent)

/-- `verify_document_with_ocr` (lines 1301-1368): the dispatch under the
outer `try`/`except`, whose handler returns `verified=False` with the
error message and `security_alert=True`. -/
def verify_document_with_ocr (agent : Agent) (document_type : String) (user : UserRec)
    (env : OrchEnv) : VDict × Agent :=
  match env.interrupt with
  | some e =>
    ({ verified := some false, error := some e, security_alert := some true }, agent)
  | none => orch_dispatch agent document_type user env

/-- The module-level shared instance (line 1172:
`_verification_agent = DocumentVerificationAgent()`). -/
def _verification_agent : Agent := { verification_steps := [] }

/-! ### Invariant lemmas over the verifier paths -/

lemma ok_pair_eq {α β γ : Type} {x : α × β} {d : α} {st : β}
    (h : (Except.ok x : Except γ (α × β)) = Except.ok (d, st)) : d = x.1 ∧ st = x.2 := by
  injection h with h'
  constructor <;> rw [h']

lemma qr_check_inv (fz : String → String → ℚ) (pd : ParsedData) (ua un : String)
    (st : Steps) :
    (qr_check fz pd ua un st).1.verified ≠ none ∧
    (qr_check fz pd ua un st).1.audit_trail = some (qr_check fz pd ua un st).2 := by
  unfold qr_check
  dsimp only
  split
  · exact ⟨by simp, rfl⟩
  · split
    · exact ⟨by simp, rfl⟩
    · exact ⟨by simp, rfl⟩

lemma extract_and_verify_inv (env : QrEnv) (ua un : String) (st : Steps) :
    ((extract_and_verify env ua un st).1.verified = none →
      (extract_and_verify env ua un st).1 = { }) ∧
    ((extract_and_verify env ua un st).1.verified ≠ none →
      (extract_and_verify env ua un st).1.audit_trail
        = some (extract_and_verify env ua un st).2) := by
  unfold extract_and_verify
  dsimp only
  split
  · exact ⟨fun _ => rfl, fun h => absurd rfl h⟩
  · split
    · exact ⟨fun _ => rfl, fun h => absurd rfl h⟩
    · exact ⟨fun hv => absurd hv (qr_check_inv _ _ _ _ _).1,
        fun _ => (qr_check_inv _ _ _ _ _).2⟩

lemma verify_multilang_ocr_inv (ocr : String → Except String String) (ua un : String)
    (st : Steps) :
    (verify_multilang_ocr ocr ua un st).1.verified ≠ none ∧
    (verify_multilang_ocr ocr ua un st).1.audit_trail
      = some (verify_multilang_ocr ocr ua un st).2 := by
  unfold verify_multilang_ocr
  rcases hE : ocrLoop ocr un languages_to_try st with ⟨o, st2⟩
  match o with
  | none => exact ⟨by simp, rfl⟩
  | some (af, nf) =>
    dsimp only
    split
    · exact ⟨by simp, rfl⟩
    · exact ⟨by simp, rfl⟩

lemma aadhaar_after_image_inv (env : AadhaarEnv) (ua un : String) (steps : Steps) :
    ∀ d st, aadhaar_after_image env ua un steps = Except.ok (d, st) →
      d.verified ≠ none ∧ d.audit_trail = some st := by
  intro d st h
  unfold aadhaar_after_image at h
  dsimp only at h
  split at h
  · next hqr =>
      obtain ⟨rfl, rfl⟩ := ok_pair_eq h
      exact ⟨hqr, (extract_and_verify_inv env.qr ua un steps).2 hqr⟩
  · split at h
    · exact Except.noConfusion h
    · obtain ⟨rfl, rfl⟩ := ok_pair_eq h
      exact verify_multilang_ocr_inv env.ocr ua un _

lemma aadhaar_body_inv (env : AadhaarEnv) (ua un : String) :
    ∀ d st, aadhaar_body env ua un = Except.ok (d, st) →
      d.verified ≠ none ∧ d.audit_trail = some st := by
  intro d st h
  unfold aadhaar_body at h
  dsimp only at h
  split at h
  · split at h
    · obtain ⟨rfl, rfl⟩ := ok_pair_eq h
      exact ⟨by simp, rfl⟩
    · exact aadhaar_after_image_inv env ua un _ d st h
  · split at h
    · exact aadhaar_after_image_inv env ua un _ d st h
    · obtain ⟨rfl, rfl⟩ := ok_pair_eq h
      exact ⟨by simp, rfl⟩

lemma verify_aadhaar_card_inv (agent : Agent) (env : AadhaarEnv) (ua un : String) :
    (verify_aadhaar_card agent env ua un).1.verified ≠ none ∧
    (verify_aadhaar_card agent env ua un).1.audit_trail
      = some (verify_aadhaar_card agent env ua un).2.verification_steps := by
  unfold verify_aadhaar_card
  split
  · next d st hB =>
      have h := aadhaar_body_inv env ua un d st hB
      exact ⟨h.1, h.2⟩
  · exact ⟨by simp, rfl⟩

lemma verify_income_inv (agent : Agent) (env : IncomeEnv) (un : String) :
    (verify_income_certificate agent env un).1.verified ≠ none ∧
    (verify_income_certificate agent env un).1.audit_trail
      = some (verify_income_certificate agent env un).2.verification_steps := by
  unfold verify_income_certificate
  dsimp only
  split
  · exact ⟨by simp, rfl⟩
  · split
    · exact ⟨by simp, rfl⟩
    · split
      · exact ⟨by simp, rfl⟩
      · split
        · exact ⟨by simp, rfl⟩
        · exact ⟨by simp, rfl⟩

lemma caste_multilang_inv (env : CasteEnv) (un : String) (state : Option String)
    (steps : Steps) :
    ∀ d st, caste_multilang_ocr env un state steps = Except.ok (d, st) →
      d.verified ≠ none ∧ d.audit_trail = some st := by
  intro d st h
  unfold caste_multilang_ocr at h
  dsimp only at h
  split at h
  · exact Except.noConfusion h
  · split at h
    · obtain ⟨rfl, rfl⟩ := ok_pair_eq h
      exact ⟨by simp, rfl⟩
    · split at h
      · obtain ⟨rfl, rfl⟩ := ok_pair_eq h
        exact ⟨by simp, rfl⟩
      · obtain ⟨rfl, rfl⟩ := ok_pair_eq h
        exact ⟨by simp, rfl⟩

lemma verify_caste_inv (agent : Agent) (env : CasteEnv) (un : String)
    (state : Option String) :
    (verify_caste_certificate agent env un state).1.verified ≠ none ∧
    (verify_caste_certificate agent env un state).1.audit_trail
      = some (verify_caste_certificate agent env un state).2.verification_steps := by
  unfold verify_caste_certificate
  dsimp only
  split
  · next d st hB =>
      split at hB
      · split at hB
        · obtain ⟨rfl, rfl⟩ := ok_pair_eq hB
          exact ⟨by simp, rfl⟩
        · have h := caste_multilang_inv env un state _ d st hB
          exact ⟨h.1, h.2⟩
      · have h := caste_multilang_inv env un state _ d st hB
        exact ⟨h.1, h.2⟩
  · next e st hB => exact ⟨by simp, rfl⟩

lemma basic_ocr_inv (env : BasicEnv) (dt un : String) :
    (verify_document_basic_ocr env dt un).verified ≠ none ∧
    (verify_document_basic_ocr env dt un).audit_trail = none := by
  unfold verify_document_basic_ocr
  split
  · exact ⟨by simp, rfl⟩
  · exact ⟨by simp, rfl⟩

/-- C2.  For every document type among `aadhaar`, `caste_certificate`,
`income_certificate` and `fir_copy`, and every user and environment
(including arbitrary stage exceptions), `verify_document_with_ocr`
returns a structured result dictionary with a Boolean `verified` key — in
the model the only exception channel is `Except`, and the orchestrator's
return type has none, so no exception propagates — and an exception
escaping the Aadhaar pipeline body is caught at that agent boundary and
converted into a `verified=false` result carrying the error message. -/
theorem C2_orchestrator_never_raises (agent : Agent) (user : UserRec) (env : OrchEnv)
    (document_type : String)
    (hdt : document_type ∈ ["aadhaar", "caste_certificate", "income_certificate", "fir_copy"]) :
    (∃ b, (verify_document_with_ocr agent document_type user env).1.verified = some b)
    ∧ ∀ ua un e st, aadhaar_body env.aadhaarEnv ua un = Except.error (e, st) →
        (verify_aadhaar_card agent env.aadhaarEnv ua un).1
          = { verified := some false, error := some ("Verification failed: " ++ e),
              audit_trail := some st } := by
  constructor
  · unfold verify_document_with_ocr
    match hI : env.interrupt with
    | some e => exact ⟨false, rfl⟩
    | none =>
      dsimp only
      unfold orch_dispatch
      simp only [List.mem_cons, List.mem_singleton] at hdt
      rcases hdt with rfl | rfl | rfl | rfl | h
      · rw [if_pos rfl]
        by_cases hu : truthy user.aadhaar_number
        · rw [if_neg (by simp [hu])]
          exact Option.ne_none_iff_exists'.mp (verify_aadhaar_card_inv agent _ _ _).1
        · rw [if_pos (by simp [hu])]
          exact ⟨false, rfl⟩
      · rw [if_neg (by decide), if_pos rfl]
        exact Option.ne_none_iff_exists'.mp (verify_caste_inv agent _ _ _).1
      · rw [if_neg (by decide), if_neg (by decide), if_pos rfl]
        exact Option.ne_none_iff_exists'.mp (verify_income_inv agent _ _).1
      · rw [if_neg (by decide), if_neg (by decide), if_neg (by decide), if_pos rfl]
        exact Option.ne_none_iff_exists'.mp (basic_ocr_inv env.basicEnv _ _).1
      · exact absurd h (by simp)
  · intro ua un e st h
    unfold verify_aadhaar_card
    rw [h]

/-- Witness for C2 at a concrete request. -/
theorem C2_orchestrator_never_raises_witness :
    (∃ b, (verify_document_with_ocr { } "aadhaar"
        { aadhaar_number := some "123456789012", full_name := "Asha Rao" } { }).1.verified
      = some b)
    ∧ ∀ ua un e st, aadhaar_body ({ } : OrchEnv).aadhaarEnv ua un = Except.error (e, st) →
        (verify_aadhaar_card { } ({ } : OrchEnv).aadhaarEnv ua un).1
          = { verified := some false, error := some ("Verification failed: " ++ e),
              audit_trail := some st } :=
  C2_orchestrator_never_raises { } { aadhaar_number := some "123456789012", full_name := "Asha Rao" }
    { } "aadhaar" (by decide)

/-- C9.  Whenever the outer boundary of `verify_document_with_ocr`
catches an exception, the returned dictionary has `verified=false`,
`security_alert=true` and carries the error message — the alert is raised
for every caught exception, identity-related or not. -/
theorem C9_outer_catch_alerts (agent : Agent) (document_type : String) (user : UserRec)
    (env : OrchEnv) (e : String) (hint : env.interrupt = some e) :
    (verify_document_with_ocr agent document_type user env).1.verified = some false
    ∧ (verify_document_with_ocr agent document_type user env).1.security_alert = some true
    ∧ (verify_document_with_ocr agent document_type user env).1.error = some e := by
  unfold verify_document_with_ocr
  rw [hint]
  exact ⟨rfl, rfl, rfl⟩

/-- Witness for C9 at a concrete caught exception that is a pure
processing error. -/
theorem C9_outer_catch_alerts_witness :
    (verify_document_with_ocr { } "aadhaar" { }
        { interrupt := some "disk read failed" }).1.verified = some false
    ∧ (verify_document_with_ocr { } "aadhaar" { }
        { interrupt := some "disk read failed" }).1.security_alert = some true
    ∧ (verify_document_with_ocr { } "aadhaar" { }
        { interrupt := some "disk read failed" }).1.error = some "disk read failed" :=
  C9_outer_catch_alerts { } "aadhaar" { } { interrupt := some "disk read failed" }
    "disk read failed" rfl

/-- C5 (amended).  The agent-handled Aadhaar path returns the full final
step sequence of the shared agent as `audit_trail` on every one of its
return paths, but the orchestrator's other paths do not: the
missing-profile-number result, the `fir_copy` basic-OCR results, the
unsupported-document-type result and the outer caught-exception result
all omit the audit trail. -/
theorem C5_audit_trail_coverage (agent : Agent) (user : UserRec) (env : OrchEnv) :
    (env.interrupt = none → truthy user.aadhaar_number →
      (verify_document_with_ocr agent "aadhaar" user env).1.audit_trail
        = some ((verify_document_with_ocr agent "aadhaar" user env).2.verification_steps))
    ∧ (env.interrupt = none → ¬ truthy user.aadhaar_number →
        (verify_document_with_ocr agent "aadhaar" user env).1.audit_trail = none)
    ∧ (env.interrupt = none →
        (verify_document_with_ocr agent "fir_copy" user env).1.audit_trail = none)
    ∧ (∀ dt, env.interrupt = none →
        dt ∉ ["aadhaar", "caste_certificate", "income_certificate", "fir_copy"] →
        (verify_document_with_ocr agent dt user env).1.audit_trail = none)
    ∧ (∀ dt e, env.interrupt = some e →
        (verify_document_with_ocr agent dt user env).1.audit_trail = none) := by
  refine ⟨?_, ?_, ?_, ?_, ?_⟩
  · intro hI hu
    unfold verify_document_with_ocr orch_dispatch
    rw [hI]
    dsimp only
    rw [if_pos rfl, if_neg (by simp [hu])]
    exact (verify_aadhaar_card_inv agent env.aadhaarEnv _ _).2
  · intro hI hu
    unfold verify_document_with_ocr orch_dispatch
    rw [hI]
    dsimp only
    rw [if_pos rfl, if_pos (by simp [hu])]
  · intro hI
    unfold verify_document_with_ocr orch_dispatch
    rw [hI]
    dsimp only
    rw [if_neg (by decide), if_neg (by decide), if_neg (by decide), if_pos rfl]
    exact (basic_ocr_inv env.basicEnv _ _).2
  · intro dt hI hdt
    simp only [List.mem_cons, List.mem_singleton, not_or] at hdt
    obtain ⟨h1, h2, h3, h4, _⟩ := hdt
    unfold verify_document_with_ocr orch_dispatch
    rw [hI]
    dsimp only
    rw [if_neg h1, if_neg h2, if_neg h3, if_neg h4]
  · intro dt e hI
    unfold verify_document_with_ocr
    rw [hI]

/-- Witness for C5's amended theorem: the Aadhaar path of a concrete
request carries the final step list as its audit trail. -/
theorem C5_audit_trail_coverage_witness :
    (verify_document_with_ocr { } "aadhaar"
        { aadhaar_number := some "123456789012", full_name := "Asha Rao" } { }).1.audit_trail
      = some ((verify_document_with_ocr { } "aadhaar"
          { aadhaar_number := some "123456789012", full_name := "Asha Rao" } { }).2.verification_steps) :=
  (C5_audit_trail_coverage { }
    { aadhaar_number := some "123456789012", full_name := "Asha Rao" } { }).1 rfl (by decide)

/-- Counterexample to C5 as stated: at the concrete unsupported document
type "passport" the orchestrator returns a result dictionary with no
audit trail at all (and the missing-profile and exception paths behave
the same), contradicting "every return path carries the full ordered
step sequence". -/
theorem C5_counterexample :
    (verify_document_with_ocr { } "passport" { } { }).1.audit_trail = none
    ∧ (verify_document_with_ocr { } "passport" { } { }).1.verified = some false
    ∧ (verify_document_with_ocr { } "passport" { } { }).1.error
        = some "Unsupported document type: passport" := by
  refine ⟨?_, ?_, ?_⟩ <;> rfl

/-- C10.  The audit-step list is per-request mutable data living on the
process-wide shared `_verification_agent` instance: one verification
request run against the shared instance leaves its own step list on it,
so the only process-wide shared object is not read-only, and concurrent
requests through it would interleave on `verification_steps`. -/
theorem C10_shared_agent_mutated :
    (verify_document_with_ocr _verification_agent "aadhaar"
        { aadhaar_number := some "123456789012", full_name := "Asha Rao" } { }).2
      ≠ _verification_agent ∧
    ((verify_document_with_ocr _verification_agent "aadhaar"
        { aadhaar_number := some "123456789012", full_name := "Asha Rao" } { }).2).verification_steps
      ≠ [] := by
  constructor <;> decide

end FairClaim
